import Mathlib

/-!
Shallow embedding of `ensto-bt-thermostat-reader.js` (Ensto ECO16BT BLE
thermostat client).  Buffers are modelled as `List Nat` (byte values);
JavaScript out-of-range indexing (`buf[i]` yielding `undefined`) is modelled
with `List.get?`.  JS numeric results that would be `NaN` (arithmetic on
`undefined`) are modelled as `none`; temperatures are exact rationals, which
agrees with IEEE doubles on every value appearing in the claims.  The file
system used by the pairing store is an association list from filename to the
stored reset code (the JSON envelope "resetCode" round-trips losslessly
for arrays of byte values, so it is modelled away).  Asynchronous device
reads are modelled by passing the byte strings the device returns as
explicit arguments, and the observable behaviour of a session (GATT writes,
log advice, emitted records, waits, exit code) as an explicit event trace.
-/

namespace EnstoBT

/-- JavaScript runtime errors that the embedded code can raise. -/
inductive JsError
  | typeError
deriving Repr, DecidableEq

/-- Errors of the pairing store: reading a pairing file that does not exist
throws (fs.readFileSync with ENOENT), surfaced as NotFoundError. -/
inductive StoreError
  | notFound
deriving Repr, DecidableEq

/-- The persisted file system: filename to stored 4-byte reset code. -/
abbrev FS := List (String × List Nat)

/-- Remove every colon from an address string; embeds the JS expression
deviceAddress.replace(new RegExp(":", "g"), "") from pairingFilename. -/
def stripColons (s : String) : String :=
  (s.toList.filter (fun c => c ≠ ':')).asString

/-- Embeds pairingFilename (line 75): the pairing file for a device address. -/
def pairingFilename (deviceAddress : String) : String :=
  "pairing-" ++ stripColons deviceAddress ++ ".json"

/-- fs.writeFileSync: create or overwrite the file named k with contents v. -/
def fsWrite (fs : FS) (k : String) (v : List Nat) : FS :=
  (k, v) :: fs.filter (fun p => p.1 ≠ k)

/-- fs.readFileSync: the contents of file k, if it exists. -/
def fsRead (fs : FS) (k : String) : Option (List Nat) :=
  List.lookup k fs

/-- Embeds writePairingInfo (lines 86-91): store the reset code under the
pairing filename for the address. -/
def writePairingInfo (fs : FS) (deviceAddress : String) (resetCode : List Nat) : FS :=
  fsWrite fs (pairingFilename deviceAddress) resetCode

/-- Embeds readPairingInfo (lines 80-84): read the pairing file for the
address; throws (NotFoundError) when the file does not exist. -/
def readPairingInfo (fs : FS) (deviceAddress : String) : Except StoreError (List Nat) :=
  match fsRead fs (pairingFilename deviceAddress) with
  | some resetCode => Except.ok resetCode
  | none => Except.error StoreError.notFound

/-! ## Advertisement filter (noble discover handler, lines 146-173) -/

/-- A BLE advertisement as delivered by the transport.  manufacturerData is
`none` when the advertisement carries no manufacturer-specific data (the JS
value is then undefined). -/
structure Advertisement where
  address : String
  localName : String
  manufacturerData : Option (List Nat)
deriving Repr, DecidableEq

/-- Embeds the localName test (line 152): the anchored regular expression
accepts exactly the names whose first eight characters are "ECO16BT ". -/
def acceptLocalName (localName : String) : Bool :=
  decide (localName.toList.take 8 = "ECO16BT ".toList)

/-- Embeds line 157: pairing is manufacturerData[10] === 49.  When
manufacturerData is absent (undefined) the JS indexing throws a TypeError;
when it is present but short, buf[10] is undefined and undefined === 49 is
false. -/
def pairingFlag (manufacturerData : Option (List Nat)) : Except JsError Bool :=
  match manufacturerData with
  | none => Except.error JsError.typeError
  | some md => Except.ok (decide (md.get? 10 = some 49))

/-- CLI mode (line 93): SCAN or READ. -/
inductive Mode
  | scan
  | read
deriving Repr, DecidableEq

/-- Observable outcome of one discover event. -/
inductive DiscoverAction
  | ignore
  | logFound (address localName : String) (pairing : Bool)
  | connectTo (address : String) (pairing : Bool)
deriving Repr, DecidableEq

/-- Embeds the discover handler (lines 146-173): reject names without the
family name start, compute the pairing flag, then either log (SCAN) or
connect when the address matches the target (READ). -/
def onDiscover (mode : Mode) (targetDeviceAddress : String) (adv : Advertisement) :
    Except JsError DiscoverAction :=
  if acceptLocalName adv.localName = false then
    Except.ok DiscoverAction.ignore
  else
    match pairingFlag adv.manufacturerData with
    | Except.error e => Except.error e
    | Except.ok pairing =>
      match mode with
      | Mode.scan => Except.ok (DiscoverAction.logFound adv.address adv.localName pairing)
      | Mode.read =>
          if adv.address = targetDeviceAddress then
            Except.ok (DiscoverAction.connectTo adv.address pairing)
          else
            Except.ok DiscoverAction.ignore

/-! ## Telemetry decoder (lines 234-249) -/

/-- Fields decoded from a 0x80 stats packet.  A temperature is `none` when
the JS arithmetic would involve an out-of-range read (NaN). -/
structure StatsFields where
  targetTemperature : Option ℚ
  roomTemperature : Option ℚ
  relayIsOn : Bool
deriving Repr, DecidableEq

/-- Embeds (256 * stats[hi] + stats[lo]) / 10 with NaN modelled as none. -/
def tempAt (stats : List Nat) (lo hi : Nat) : Option ℚ :=
  match stats.get? hi, stats.get? lo with
  | some h, some l => some (((256 * h + l : ℕ) : ℚ) / 10)
  | _, _ => none

/-- Embeds the decode step of the polling body (lines 234-238): a record is
produced exactly when stats[0] === 0x80; targetTemperature comes from bytes
[1,2], roomTemperature from bytes [4,5], relayIsOn from stats[8] === 1. -/
def decodeStats (stats : List Nat) : Option StatsFields :=
  if stats.get? 0 = some 0x80 then
    some ⟨tempAt stats 1 2, tempAt stats 4 5, decide (stats.get? 8 = some 1)⟩
  else
    none

/-- Remove every NUL character; embeds .replace(new RegExp("\x00", "g"), ""). -/
def stripNulls (s : String) : String :=
  (s.toList.filter (fun c => c ≠ Char.ofNat 0)).asString

/-- Embeds the device-name decoding (lines 223-226): drop the first byte,
decode the rest as text, and remove NUL bytes.  Bytes are mapped to
characters directly, which agrees with Buffer.toString() on the ASCII
and NUL bytes appearing in the claims. -/
def decodeDeviceName (raw : List Nat) : String :=
  stripNulls ((raw.drop 1).map Char.ofNat).asString

/-! ## Session controller (connect, lines 175-255) -/

/-- Observable events of a session after connection: the authenticate write
to the reset characteristic (with noble's withoutResponse flag as passed on
line 220), the "enable pairing and try again" advice logged on line 210 with
level 1, an emitted DeviceReading (its decoded stats fields), and the fixed
500 ms wait of the continuous polling loop. -/
inductive Event
  | writeReset (data : List Nat) (withoutResponse : Bool)
  | logPairingAdvice
  | emit (r : StatsFields)
  | wait (ms : Nat)
deriving Repr, DecidableEq

/-- Follows the words of the spec (section 4.3), for comparison with the
code: the authenticate write is made "with no acknowledgment requested".
In noble's API the second argument of writeAsync is the withoutResponse
flag, so a write requests no acknowledgment exactly when that flag is
true. -/
def writeRequestsNoAck : Event → Bool
  | Event.writeReset _ withoutResponse => withoutResponse
  | _ => false

/-- Events produced by one poll iteration body (lines 234-249). -/
def emitOf (stats : List Nat) : List Event :=
  match decodeStats stats with
  | some r => [Event.emit r]
  | none => []

/-- Embeds the do/while polling loop (lines 228-254) over the successive
byte strings returned by statsChar.readAsync.  Returns the events of the
loop and the exit code of the process.exit(0) on line 255 when the loop
exits; `none` means the loop is still awaiting a read (list exhausted) or,
with keepReading, repeats forever. -/
def pollTrace : Bool → List (List Nat) → List Event × Option Nat
  | _, [] => ([], none)
  | false, stats :: _ => (emitOf stats, some 0)
  | true, stats :: rest =>
      let t := pollTrace true rest
      (emitOf stats ++ Event.wait 500 :: t.1, t.2)

/-- Result of a connect session: the file system after it, the decoded
device name when the session reached the name-reading step, the event
trace, and the process exit code if the session exited. -/
structure SessionResult where
  fs : FS
  deviceName : Option String
  events : List Event
  exitCode : Option Nat
deriving Repr, DecidableEq

/-- Embeds connect (lines 175-255) from the point the characteristics are
known.  resetCharResponse is the byte string resetChar.readAsync returns,
dnameRaw the byte string of the device-name characteristic, statsReads the
successive byte strings of the stats characteristic.  In the pairing branch
the first four bytes of the response become the reset code and are stored;
in the normal branch the stored code is loaded, and a missing pairing file
logs the advice and exits with code 1 before the authenticate write. -/
def connect (fs : FS) (address : String) (pairing : Bool)
    (resetCharResponse : List Nat) (dnameRaw : List Nat)
    (keepReading : Bool) (statsReads : List (List Nat)) : SessionResult :=
  if pairing then
    let resetCode := resetCharResponse.take 4
    let fs1 := writePairingInfo fs address resetCode
    let p := pollTrace keepReading statsReads
    ⟨fs1, some (decodeDeviceName dnameRaw), Event.writeReset resetCode false :: p.1, p.2⟩
  else
    match readPairingInfo fs address with
    | Except.ok resetCode =>
        let p := pollTrace keepReading statsReads
        ⟨fs, some (decodeDeviceName dnameRaw), Event.writeReset resetCode false :: p.1, p.2⟩
    | Except.error _ =>
        ⟨fs, none, [Event.logPairingAdvice], some 1⟩

/-- Embeds the address validation of the --read argument (lines 107-113):
six groups of two lowercase hex digits separated by colons. -/
def isHexDigitLc (c : Char) : Bool :=
  (('0' ≤ c && c ≤ '9') || ('a' ≤ c && c ≤ 'f'))

/-- A canonical colon-hex device address: 17 characters, colons at positions
2, 5, 8, 11, 14, hex digits elsewhere. -/
def validAddress (s : String) : Bool :=
  s.toList.length = 17 &&
  (List.range 17).all (fun i =>
    if i % 3 = 2 then s.toList.getD i ' ' = ':'
    else isHexDigitLc (s.toList.getD i ' '))

/-! ## Claim C1: decoding the example stats packet -/

/-- Claim C1 counterexample: decoding the packet
[0x80, 0xC3, 0x00, 0x00, 0x00, 0xCD, 0x00, 0x00, 0x00, 0x01] does not
yield targetTemperature 19.5, roomTemperature 20.5 and relayIsOn true:
byte 4 of this packet is 0x00 and byte 5 is 0xCD, so the room temperature
is (256*0xCD + 0)/10, and byte 8 is 0x00, so the relay is off. -/
theorem decode_example_packet_not_as_claimed :
    decodeStats [0x80, 0xC3, 0x00, 0x00, 0x00, 0xCD, 0x00, 0x00, 0x00, 0x01] ≠
      some ⟨some ((39 : ℚ) / 2), some ((41 : ℚ) / 2), true⟩ := by
  intro h
  simp [decodeStats, tempAt] at h

/-- Claim C1 (amended): decoding the stats packet
[0x80, 0xC3, 0x00, 0x00, 0x00, 0xCD, 0x00, 0x00, 0x00, 0x01] yields
targetTemperature = 19.5 (from bytes [1,2], (256*high + low)/10),
roomTemperature = 5248.0 (from bytes [4,5], which are 0x00 and 0xCD), and
relayIsOn = false (byte [8] is 0x00, not 1). -/
theorem decode_example_packet_value :
    decodeStats [0x80, 0xC3, 0x00, 0x00, 0x00, 0xCD, 0x00, 0x00, 0x00, 0x01] =
      some ⟨some ((39 : ℚ) / 2), some (5248 : ℚ), false⟩ := by
  simp [decodeStats, tempAt]
  norm_num

/-! ## Claim C2: termination of the polling loop -/

/-- Claim C2 counterexample: with keep-reading not requested, a session
whose first (and only) stats read returns a packet whose first byte is
0x40, not 0x80, exits with the success code 0 and an empty event trace,
so no DeviceReading was emitted. -/
theorem single_nondecodable_read_exits_success :
    pollTrace false [[0x40]] = ([], some 0) := by decide

/-- The continuous polling loop never exits on its own. -/
theorem pollTrace_true_exit_none : ∀ reads, (pollTrace true reads).2 = none
  | [] => rfl
  | stats :: rest => by
      simp [pollTrace, pollTrace_true_exit_none rest]

/-- Claim C2 (amended): in non-continuous mode the polling loop performs
exactly one read and then exits with success, emitting a reading only if
that single packet decodes (first byte 0x80) and emitting nothing
otherwise; in continuous mode each iteration is followed by a fixed
500 ms wait and the loop repeats, never exiting on its own. -/
theorem poll_loop_iteration_behavior :
    (∀ (stats : List Nat) (rest : List (List Nat)),
      pollTrace false (stats :: rest) = (emitOf stats, some 0)) ∧
    (∀ (stats : List Nat) (rest : List (List Nat)),
      pollTrace true (stats :: rest) =
        (emitOf stats ++ Event.wait 500 :: (pollTrace true rest).1, none)) := by
  refine ⟨fun stats rest => rfl, fun stats rest => ?_⟩
  simp [pollTrace, pollTrace_true_exit_none rest]

/-- Witness for claim C2 (amended), at one decodable and one
non-decodable packet. -/
theorem poll_loop_iteration_behavior_witness :
    pollTrace false [[0x80]] = (emitOf [0x80], some 0) ∧
    pollTrace true [[0x40]] =
      (emitOf [0x40] ++ Event.wait 500 :: (pollTrace true []).1, none) :=
  ⟨poll_loop_iteration_behavior.1 [0x80] [],
   poll_loop_iteration_behavior.2 [0x40] []⟩

/-! ## Claim C3: short 0x80 packets -/

/-- Claim C3 counterexample: the one-byte packet [0x80] is shorter than
the minimum length for the decoded fields, yet the decoder does not fail:
it produces a record (with both temperatures NaN, modelled none, and the
relay off), and the polling body emits that record. -/
theorem short_stats_packet_emits_record :
    decodeStats [0x80] = some ⟨none, none, false⟩ ∧
    emitOf [0x80] = [Event.emit ⟨none, none, false⟩] := by decide

/-- Claim C3 (amended): for every stats packet whose first byte is 0x80
but which is shorter than the minimum length needed for the decoded
fields, decoding does not fail: a record is still produced and emitted,
with relayIsOn false when byte 8 is absent and with a temperature NaN
(modelled none) whenever its source bytes lie past the end of the
packet. -/
theorem short_stats_packet_decodes_degraded :
    ∀ stats : List Nat, stats.get? 0 = some 0x80 → stats.length ≤ 8 →
      decodeStats stats = some ⟨tempAt stats 1 2, tempAt stats 4 5, false⟩ ∧
      (stats.length ≤ 2 → tempAt stats 1 2 = none) ∧
      (stats.length ≤ 5 → tempAt stats 4 5 = none) ∧
      emitOf stats = [Event.emit ⟨tempAt stats 1 2, tempAt stats 4 5, false⟩] := by
  intro stats h0 h8
  have h0g : stats[0]? = some 0x80 := by
    rw [← List.get?_eq_getElem?]; exact h0
  have g8 : stats[8]? = none := by
    rw [← List.get?_eq_getElem?]; exact List.get?_eq_none.mpr h8
  have hdec : decodeStats stats =
      some ⟨tempAt stats 1 2, tempAt stats 4 5, false⟩ := by
    simp [decodeStats, h0g, g8]
  refine ⟨hdec, ?_, ?_, ?_⟩
  · intro h2
    have g2 : stats[2]? = none := by
      rw [← List.get?_eq_getElem?]; exact List.get?_eq_none.mpr h2
    cases h1 : stats[1]? <;> simp [tempAt, g2, h1]
  · intro h5
    have g5 : stats[5]? = none := by
      rw [← List.get?_eq_getElem?]; exact List.get?_eq_none.mpr h5
    cases h4 : stats[4]? <;> simp [tempAt, g5, h4]
  · simp [emitOf, hdec]

/-- Witness for claim C3 (amended), at the one-byte packet [0x80]. -/
theorem short_stats_packet_decodes_degraded_witness :
    decodeStats [0x80] = some ⟨tempAt [0x80] 1 2, tempAt [0x80] 4 5, false⟩ ∧
    (([0x80] : List Nat).length ≤ 2 → tempAt [0x80] 1 2 = none) ∧
    (([0x80] : List Nat).length ≤ 5 → tempAt [0x80] 4 5 = none) ∧
    emitOf [0x80] = [Event.emit ⟨tempAt [0x80] 1 2, tempAt [0x80] 4 5, false⟩] :=
  short_stats_packet_decodes_degraded [0x80] (by decide) (by decide)

/-! ## Claim C4: pairing flag from manufacturerData -/

/-- Claim C4 counterexample: when an accepted advertisement carries no
manufacturerData at all (undefined), the pairing-flag computation throws
a TypeError instead of returning pairingMode = false. -/
theorem absent_manufacturer_data_throws :
    pairingFlag none = Except.error JsError.typeError ∧
    pairingFlag none ≠ Except.ok false :=
  ⟨rfl, by simp [pairingFlag]⟩

/-- Claim C4 (amended): for every accepted advertisement whose
manufacturerData is present, the filter never throws: pairingMode is false
whenever the data is shorter than 11 bytes, and pairingMode is true
exactly when the byte at index 10 equals ASCII 0x31; when manufacturerData
is absent, the computation throws a TypeError. -/
theorem pairing_flag_of_manufacturer_data :
    (∀ md : List Nat, md.length < 11 → pairingFlag (some md) = Except.ok false) ∧
    (∀ md : List Nat, pairingFlag (some md) = Except.ok true ↔ md.get? 10 = some 49) ∧
    pairingFlag none = Except.error JsError.typeError := by
  refine ⟨fun md h => ?_, fun md => ?_, rfl⟩
  · have g : md.get? 10 = none := List.get?_eq_none.mpr (by omega)
    rw [List.get?_eq_getElem?] at g
    simp [pairingFlag, g]
  · rw [List.get?_eq_getElem?]
    simp [pairingFlag]

/-- Witness for claim C4 (amended), at the empty manufacturerData and at
one whose byte 10 is ASCII 0x31. -/
theorem pairing_flag_of_manufacturer_data_witness :
    pairingFlag (some []) = Except.ok false ∧
    pairingFlag (some [69, 67, 79, 49, 54, 66, 84, 59, 49, 59, 49]) =
      Except.ok true :=
  ⟨pairing_flag_of_manufacturer_data.1 [] (by decide),
   (pairing_flag_of_manufacturer_data.2.1
     [69, 67, 79, 49, 54, 66, 84, 59, 49, 59, 49]).mpr (by decide)⟩

/-! ## Claim C5: the pairing-mode authentication branch -/

/-- Claim C5 counterexample: in a concrete pairing-mode session the
authenticate write passes withoutResponse = false to the reset
characteristic, so the write is an acknowledged GATT write; the claim that
no acknowledgment is requested is false. -/
theorem pairing_write_requests_acknowledgment :
    (connect [] "90:fd:9f:12:34:56" true [1, 2, 3, 4, 9] [9] false []).events =
      [Event.writeReset [1, 2, 3, 4] false] ∧
    writeRequestsNoAck (Event.writeReset [1, 2, 3, 4] false) = false := by decide

/-- Claim C5 (amended): in the pairing-mode branch, authenticate takes
exactly the first 4 bytes of the reset-characteristic response as the new
credential, persists it via the pairing store overwriting any prior record
for that address, and then writes that same 4-byte credential back to the
reset-code characteristic as an acknowledged write (the withoutResponse
flag passed to the transport is false, so acknowledgment is requested). -/
theorem pairing_branch_behavior :
    ∀ (fs : FS) (address : String) (resp dname : List Nat) (kr : Bool)
      (reads : List (List Nat)), 4 ≤ resp.length →
      (resp.take 4).length = 4 ∧
      (connect fs address true resp dname kr reads).fs =
        writePairingInfo fs address (resp.take 4) ∧
      readPairingInfo (connect fs address true resp dname kr reads).fs address =
        Except.ok (resp.take 4) ∧
      (connect fs address true resp dname kr reads).events.head? =
        some (Event.writeReset (resp.take 4) false) := by
  intro fs address resp dname kr reads h
  refine ⟨?_, ?_, ?_, ?_⟩
  · simp [List.length_take]
    omega
  · simp [connect]
  · simp [connect, readPairingInfo, writePairingInfo, fsWrite, fsRead,
      List.lookup]
  · simp [connect]

/-- Witness for claim C5 (amended), at a concrete five-byte
reset-characteristic response. -/
theorem pairing_branch_behavior_witness :
    (([1, 2, 3, 4, 9] : List Nat).take 4).length = 4 ∧
    (connect [] "90:fd:9f:12:34:56" true [1, 2, 3, 4, 9] [9] false []).fs =
      writePairingInfo [] "90:fd:9f:12:34:56" (([1, 2, 3, 4, 9] : List Nat).take 4) ∧
    readPairingInfo
        (connect [] "90:fd:9f:12:34:56" true [1, 2, 3, 4, 9] [9] false []).fs
        "90:fd:9f:12:34:56" =
      Except.ok (([1, 2, 3, 4, 9] : List Nat).take 4) ∧
    (connect [] "90:fd:9f:12:34:56" true [1, 2, 3, 4, 9] [9] false []).events.head? =
      some (Event.writeReset (([1, 2, 3, 4, 9] : List Nat).take 4) false) :=
  pairing_branch_behavior [] "90:fd:9f:12:34:56" [1, 2, 3, 4, 9] [9] false []
    (by decide)

/-! ## Claim C6: pairing store round trip -/

/-- Claim C6: for every 4-byte credential and valid colon-hex address,
save followed by load returns exactly the credential, and the persistence
key used by both operations is the address with the colon separators
stripped: any address with the same stripped form reads back the same
record. -/
theorem pairing_store_roundtrip :
    ∀ (fs : FS) (addr : String) (cred : List Nat), cred.length = 4 →
      validAddress addr = true →
      readPairingInfo (writePairingInfo fs addr cred) addr = Except.ok cred ∧
      (∀ addr2 : String, stripColons addr2 = stripColons addr →
        readPairingInfo (writePairingInfo fs addr cred) addr2 = Except.ok cred) := by
  intro fs addr cred _ _
  have key : ∀ addr2 : String, stripColons addr2 = stripColons addr →
      readPairingInfo (writePairingInfo fs addr cred) addr2 = Except.ok cred := by
    intro addr2 h2
    have hfile : pairingFilename addr2 = pairingFilename addr := by
      simp [pairingFilename, h2]
    simp [readPairingInfo, writePairingInfo, fsWrite, fsRead, hfile,
      List.lookup]
  exact ⟨key addr rfl, key⟩

/-- Witness for claim C6, at a concrete address and credential. -/
theorem pairing_store_roundtrip_witness :
    readPairingInfo (writePairingInfo [] "90:fd:9f:12:34:56" [1, 2, 3, 4])
        "90:fd:9f:12:34:56" = Except.ok [1, 2, 3, 4] ∧
    (∀ addr2 : String, stripColons addr2 = stripColons "90:fd:9f:12:34:56" →
      readPairingInfo (writePairingInfo [] "90:fd:9f:12:34:56" [1, 2, 3, 4])
        addr2 = Except.ok [1, 2, 3, 4]) :=
  pairing_store_roundtrip [] "90:fd:9f:12:34:56" [1, 2, 3, 4]
    (by decide) (by decide)

/-! ## Claim C7: missing pairing record is fatal -/

/-- Claim C7: loading the pairing record of an address with no prior save
fails with NotFoundError, and in the normal (non-pairing) branch this is
fatal for the session: it exits with the failure code 1, the advice to
re-enable pairing mode and retry is logged, and no polling (indeed no
authenticate write, no emission, no wait) happens. -/
theorem missing_pairing_record_fatal :
    ∀ (fs : FS) (addr : String) (resp dname : List Nat) (kr : Bool)
      (reads : List (List Nat)),
      fsRead fs (pairingFilename addr) = none →
      readPairingInfo fs addr = Except.error StoreError.notFound ∧
      connect fs addr false resp dname kr reads =
        ⟨fs, none, [Event.logPairingAdvice], some 1⟩ := by
  intro fs addr resp dname kr reads h
  have hr : readPairingInfo fs addr = Except.error StoreError.notFound := by
    simp [readPairingInfo, h]
  exact ⟨hr, by simp [connect, hr]⟩

/-- Witness for claim C7, at the empty file system. -/
theorem missing_pairing_record_fatal_witness :
    readPairingInfo [] "90:fd:9f:12:34:56" = Except.error StoreError.notFound ∧
    connect [] "90:fd:9f:12:34:56" false [1, 2, 3, 4] [9] false [[0x80]] =
      ⟨[], none, [Event.logPairingAdvice], some 1⟩ :=
  missing_pairing_record_fatal [] "90:fd:9f:12:34:56" [1, 2, 3, 4] [9] false
    [[0x80]] (by decide)

/-! ## Claim C8: localName gate of the advertisement filter -/

/-- Claim C8: every advertisement whose localName does not begin with
"ECO16BT " is silently ignored by the discover handler — no error and no
connection attempt, in either mode and regardless of the rest of the
advertisement — and conversely every discover outcome other than ignoring
(a scan log entry or a connection) only happens for a localName with that
beginning. -/
theorem advertisement_filter_name_gate :
    (∀ (mode : Mode) (target : String) (adv : Advertisement),
      acceptLocalName adv.localName = false →
      onDiscover mode target adv = Except.ok DiscoverAction.ignore) ∧
    (∀ (mode : Mode) (target : String) (adv : Advertisement)
      (a : DiscoverAction), onDiscover mode target adv = Except.ok a →
      a ≠ DiscoverAction.ignore → acceptLocalName adv.localName = true) := by
  constructor
  · intro mode target adv h
    simp [onDiscover, h]
  · intro mode target adv a h ha
    cases hacc : acceptLocalName adv.localName with
    | true => rfl
    | false =>
        rw [onDiscover, if_pos hacc] at h
        cases h
        exact absurd rfl ha

/-- Witness for claim C8, at an advertisement with a foreign localName
and no manufacturerData, and at an accepted scan outcome. -/
theorem advertisement_filter_name_gate_witness :
    onDiscover Mode.read "90:fd:9f:12:34:56"
      ⟨"90:fd:9f:12:34:56", "OTHER9BT x", none⟩ =
      Except.ok DiscoverAction.ignore ∧
    acceptLocalName "ECO16BT 123456" = true :=
  ⟨advertisement_filter_name_gate.1 Mode.read "90:fd:9f:12:34:56"
      ⟨"90:fd:9f:12:34:56", "OTHER9BT x", none⟩ (by decide),
   advertisement_filter_name_gate.2 Mode.scan "90:fd:9f:12:34:56"
      ⟨"90:fd:9f:12:34:56", "ECO16BT 123456", some []⟩
      (DiscoverAction.logFound "90:fd:9f:12:34:56" "ECO16BT 123456" false)
      rfl (by decide)⟩

/-! ## Claim C9: device-name decoding -/

/-- The NUL-removing step of the device-name decoding is idempotent. -/
theorem stripNulls_idem (s : String) : stripNulls (stripNulls s) = stripNulls s := by
  simp only [stripNulls, List.toList_asString]
  rw [List.filter_filter]
  simp

/-- Claim C9: device-name decoding strips the first byte of the raw value,
decodes the remainder as text and removes the NUL padding: the raw bytes
[0x09, 0x4C, 0x69, 0x76, 0x00, 0x00] decode to "Liv"; an all-null or
empty remainder decodes to the empty name; and the text-level step of the
decoding is idempotent on the decoder's output. -/
theorem device_name_decoding :
    decodeDeviceName [0x09, 0x4C, 0x69, 0x76, 0x00, 0x00] = "Liv" ∧
    (∀ raw : List Nat, (∀ b ∈ raw.drop 1, b = 0) → decodeDeviceName raw = "") ∧
    (∀ raw : List Nat, stripNulls (decodeDeviceName raw) = decodeDeviceName raw) := by
  refine ⟨by decide, ?_, fun raw => stripNulls_idem _⟩
  intro raw h
  have hfil : ((raw.drop 1).map Char.ofNat).filter
      (fun c => decide (c ≠ Char.ofNat 0)) = [] := by
    rw [List.filter_eq_nil_iff]
    intro c hc
    rcases List.mem_map.mp hc with ⟨b, hb, rfl⟩
    simp [h b hb]
  have : stripNulls ((raw.drop 1).map Char.ofNat).asString = "" := by
    rw [stripNulls, List.toList_asString, hfil]
    rfl
  exact this

/-- Witness for claim C9, at a raw value whose remainder is all NUL. -/
theorem device_name_decoding_witness :
    decodeDeviceName [0x09, 0x4C, 0x69, 0x76, 0x00, 0x00] = "Liv" ∧
    decodeDeviceName [0x09, 0x00, 0x00] = "" ∧
    stripNulls (decodeDeviceName [0x09, 0x4C, 0x69, 0x76, 0x00, 0x00]) =
      decodeDeviceName [0x09, 0x4C, 0x69, 0x76, 0x00, 0x00] :=
  ⟨device_name_decoding.1,
   device_name_decoding.2.1 [0x09, 0x00, 0x00] (by decide),
   device_name_decoding.2.2 [0x09, 0x4C, 0x69, 0x76, 0x00, 0x00]⟩

/-! ## Claim C10: the normal branch never writes the pairing store -/

/-- Claim C10: for every session with pairing-mode not detected, the
persisted pairing records after the session equal those before it — the
normal authentication branch only reads the pairing store, whether the
load succeeds or fails; only the pairing-mode branch performs a save. -/
theorem normal_branch_preserves_store :
    ∀ (fs : FS) (addr : String) (resp dname : List Nat) (kr : Bool)
      (reads : List (List Nat)),
      (connect fs addr false resp dname kr reads).fs = fs := by
  intro fs addr resp dname kr reads
  cases h : readPairingInfo fs addr <;> simp [connect, h]

/-- Witness for claim C10, at a store holding one record and a session in
the normal branch. -/
theorem normal_branch_preserves_store_witness :
    (connect [("pairing-90fd9f123456.json", [1, 2, 3, 4])] "90:fd:9f:12:34:56"
        false [5, 6, 7, 8] [9] false [[0x80]]).fs =
      [("pairing-90fd9f123456.json", [1, 2, 3, 4])] :=
  normal_branch_preserves_store [("pairing-90fd9f123456.json", [1, 2, 3, 4])]
    "90:fd:9f:12:34:56" [5, 6, 7, 8] [9] false [[0x80]]

end EnstoBT
